import Mathlib

/-!
Verification of the AI task-estimation pipeline of the Railywat deployment
repository (`src/services/ai_services.py`, `src/ai_task_creator.py`).

Python strings are modelled as Lean `String`s, with the Python string methods
used by the source (strip, startswith, endswith, slicing, lower, upper,
capitalize, split, join) embedded character-wise through `String.data`.
JSON values are modelled by the inductive `JVal`; a parsed JSON object is
modelled by the structure `JsonObj` restricted to the keys the pipeline
reads (other keys are never observed by the code under scrutiny).
`json.loads` is an external library function and enters the model as an
explicit `parse : String → Option JsonObj` parameter; the external Gemini
call enters as `call : Nat → Except String String`, giving for each attempt
index either the raised exception text or the reply text.
-/

namespace AiKanban

/-- Python string values as JSON yields them: strings, arrays, booleans,
numbers and null. -/
inductive JVal where
  | jstr (s : String)
  | jarr (xs : List JVal)
  | jbool (b : Bool)
  | jnum (n : Int)
  | jnull
deriving Repr

/-- Python truthiness of a JSON value (`if x:`). -/
def JVal.truthy : JVal → Bool
  | .jstr s => s != ""
  | .jarr xs => !xs.isEmpty
  | .jbool b => b
  | .jnum n => n != 0
  | .jnull => false

/-- A parsed JSON dictionary, restricted to the keys the pipeline reads.
`none` models an absent key. -/
structure JsonObj where
  title : Option JVal := none
  estimated_time : Option JVal := none
  priority : Option JVal := none
  complexity_level : Option JVal := none
  dependencies : Option JVal := none
  required_access : Option JVal := none
  suggested_labels : Option JVal := none
  reasoning : Option JVal := none
  success : Option JVal := none
  error : Option JVal := none
deriving Repr

/- Character-wise embeddings of the Python string methods used by the source. -/

/-- Python `str.strip()` on a character list: drop whitespace from both ends. -/
def stripL (l : List Char) : List Char :=
  ((l.dropWhile Char.isWhitespace).reverse.dropWhile Char.isWhitespace).reverse

/-- Python `str.strip()`. -/
def pyStrip (s : String) : String := ⟨stripL s.data⟩

/-- Python `str.startswith(pre)`. -/
def pyStartsWith (s pre : String) : Bool := pre.data.isPrefixOf s.data

/-- Python `str.endswith(suf)`. -/
def pyEndsWith (s suf : String) : Bool := suf.data.isSuffixOf s.data

/-- Python `s[n:]` (drop the first `n` characters). -/
def pyDropChars (s : String) (n : Nat) : String := ⟨s.data.drop n⟩

/-- Python `s[:-n]` (drop the last `n` characters). -/
def pyDropRightChars (s : String) (n : Nat) : String := ⟨s.data.take (s.data.length - n)⟩

/-- Python `s[:n]` (the first `n` characters). -/
def pyTake (s : String) (n : Nat) : String := ⟨s.data.take n⟩

/-- Python `str.lower()` (ASCII fragment). -/
def pyLower (s : String) : String := ⟨s.data.map Char.toLower⟩

/-- Python `str.upper()` (ASCII fragment). -/
def pyUpper (s : String) : String := ⟨s.data.map Char.toUpper⟩

/-- Helper for `pySplitWs`: scan the characters, accumulating the current
word in reverse. -/
def splitWsAux : List Char → List Char → List String
  | [], acc => if acc.isEmpty then [] else [⟨acc.reverse⟩]
  | c :: cs, acc =>
    if c.isWhitespace then
      if acc.isEmpty then splitWsAux cs [] else ⟨acc.reverse⟩ :: splitWsAux cs []
    else splitWsAux cs (c :: acc)

/-- Python `str.split()` with no argument: split on whitespace runs,
discarding empty pieces. -/
def pySplitWs (s : String) : List String := splitWsAux s.data []

/-- Python `str.replace(a, b)` for one-character patterns (the source only
replaces `"\n"` by `" "`). -/
def pyReplaceChar (s : String) (a b : Char) : String :=
  ⟨s.data.map (fun c => if c = a then b else c)⟩

/-- Python `sep.join(parts)`. -/
def pyJoin (sep : String) : List String → String
  | [] => ""
  | [w] => w
  | w :: ws => w ++ sep ++ pyJoin sep ws

/-- Python `str.capitalize()`: first character upper-cased, the rest
lower-cased. -/
def pyCapitalize (s : String) : String :=
  match s.data with
  | [] => ""
  | c :: cs => ⟨c.toUpper :: cs.map Char.toLower⟩

/-- Python `"x" in e` substring test. -/
def containsSub (hay needle : String) : Bool :=
  hay.data.tails.any (fun t => needle.data.isPrefixOf t)

/-! Embedding of `src/services/ai_services.py`, `AIEstimator.estimate_task`. -/

/-- The transient-unavailability test of the retry loop:
`"503" in str(e) or "UNAVAILABLE" in str(e)`. -/
def isTransientError (e : String) : Bool :=
  containsSub e "503" || containsSub e "UNAVAILABLE"

/-- The retry loop of `estimate_task`
(`for attempt in range(max_retries): ...`), with the sequence of
`time.sleep` delays recorded as an explicit trace.  `fuel` is the number of
attempts still allowed (`max_retries - attempt`); the `fuel = 0` branch is
unreachable from `modelInvoke` because the loop either breaks or raises on
its last attempt. -/
def retryLoop (call : Nat → Except String String) :
    Nat → Nat → Nat → List Nat → Except String String × List Nat
  | _attempt, 0, _delay, delays => (.error "", delays)
  | attempt, fuel + 1, delay, delays =>
    match call attempt with
    | .ok r => (.ok r, delays)
    | .error e =>
      if isTransientError e then
        if fuel > 0 then
          retryLoop call (attempt + 1) fuel (delay * 2) (delays ++ [delay])
        else (.error e, delays)
      else (.error e, delays)

/-- The model invocation with `max_retries = 3` and `retry_delay = 2`. -/
def modelInvoke (call : Nat → Except String String) : Except String String × List Nat :=
  retryLoop call 0 3 2 []

/-- The markdown code-fence removal of `estimate_task`:
`strip`, drop a leading ```` ```json ````, drop a leading ```` ``` ````,
drop a trailing ```` ``` ````, `strip` again. -/
def stripFences (s : String) : String :=
  let t := pyStrip s
  let t := if pyStartsWith t "```json" then pyDropChars t 7 else t
  let t := if pyStartsWith t "```" then pyDropChars t 3 else t
  let t := if pyEndsWith t "```" then pyDropRightChars t 3 else t
  pyStrip t

/-- `if isinstance(x, str): x = [x]` — the scalar-to-array coercion. -/
def wrapIfStr : JVal → JVal
  | .jstr s => .jarr [.jstr s]
  | v => v

/-- The dictionary returned on a successful JSON parse:
`{"success": True, "title": estimate_data.get("title", ""), **estimate_data}`,
after `required_access` has been wrapped into an array when it was a bare
string.  Keys of `estimate_data` take precedence over the two literals. -/
def parsedSuccessResult (estimate_data : JsonObj) : JsonObj :=
  { estimate_data with
    required_access := estimate_data.required_access.map wrapIfStr
    success := some (estimate_data.success.getD (.jbool true))
    title := some (estimate_data.title.getD (.jstr "")) }

/-- The text of the `JSONDecodeError` fallback's `reasoning` before the
embedded task excerpt. -/
def jsonFallbackHead : String :=
  "Phase 1: Technical Breakdown\n                Overview: "

/-- The text of the `JSONDecodeError` fallback's `reasoning` after the
embedded task excerpt. -/
def jsonFallbackTail : String :=
  ". Standard development workflow with modern tech stack. Requires environment setup, implementation, and deployment phases.\n\n                Phase 1: Requirements Analysis and Setup\n                - Review task requirements and define scope\n                - Set up development environment and tools\n                - Create project structure and initial configuration\n\n                Phase 2: Core Implementation\n                - Implement main functionality according to specifications\n                - Write comprehensive unit and integration tests\n                - Conduct code review and refactoring\n\n                Phase 3: Testing and Deployment\n                - Perform end-to-end testing in staging environment\n                - Create deployment documentation and runbooks\n                - Deploy to production with monitoring setup"

/-- The `reasoning` string of the `json.JSONDecodeError` fallback, with the
first 200 characters of the task description embedded in the Overview. -/
def jsonFallbackReasoning (task_description : String) : String :=
  jsonFallbackHead ++ pyTake task_description 200 ++ jsonFallbackTail

/-- The dictionary returned when `json.loads` raises `JSONDecodeError`. -/
def jsonDecodeFallback (task_description : String) : JsonObj :=
  { success := some (.jbool true)
    title := some (.jstr "Task Needs Analysis")
    estimated_time := some (.jstr "1 week")
    priority := some (.jstr "Medium")
    complexity_level := some (.jstr "Medium")
    dependencies := some (.jarr [.jstr "Initial project setup"])
    required_access := some (.jarr [.jstr "Development Environment Access",
      .jstr "Version Control System (GitHub/GitLab)", .jstr "Testing Environment"])
    suggested_labels := some (.jarr [.jstr "feature", .jstr "development"])
    reasoning := some (.jstr (jsonFallbackReasoning task_description))
    error := none }

/-- The `reasoning` string of the outer exception handler's fallback. -/
def geminiFailureReasoning : String :=
  "Phase 1: Technical Breakdown\nOverview: AI estimation service temporarily unavailable. Manual technical review required to assess scope, dependencies, and implementation approach.\n\nPhase 1: Requirements Gathering\n- Conduct stakeholder meetings to clarify requirements\n- Document technical specifications and constraints\n- Identify system dependencies and integration points\n\nPhase 2: Technical Planning and Design\n- Create detailed system architecture design\n- Define API contracts and data models\n- Estimate resource requirements and timeline\n\nPhase 3: Implementation Strategy\n- Break down work into manageable sprints\n- Assign team members and allocate resources\n- Set up monitoring and quality assurance processes"

/-- The dictionary returned by the outer `except Exception` handler of
`estimate_task` (non-transient model error, or retries exhausted). -/
def geminiFailureResult (e : String) : JsonObj :=
  { success := some (.jbool false)
    error := some (.jstr ("AI Generation failed: " ++ e))
    title := some (.jstr "Manual Review Required")
    estimated_time := some (.jstr "Unknown")
    priority := some (.jstr "Medium")
    complexity_level := some (.jstr "Medium")
    dependencies := some (.jarr [.jstr "Requirements gathering needed"])
    required_access := some (.jarr [.jstr "To be determined"])
    suggested_labels := some (.jarr [.jstr "needs-analysis"])
    reasoning := some (.jstr geminiFailureReasoning) }

/-- `AIEstimator.estimate_task`: invoke the model with retries; on a raised
error return the failure dictionary; otherwise strip code fences from the
reply and parse it, returning the merged dictionary on success and the
deterministic fallback on `JSONDecodeError`.  The second component is the
trace of backoff delays performed. -/
def estimate_task (parse : String → Option JsonObj) (call : Nat → Except String String)
    (task_description : String) : JsonObj × List Nat :=
  match modelInvoke call with
  | (.error e, delays) => (geminiFailureResult e, delays)
  | (.ok text, delays) =>
    let response_text := stripFences text
    match parse response_text with
    | some estimate_data => (parsedSuccessResult estimate_data, delays)
    | none => (jsonDecodeFallback task_description, delays)

/-! Embedding of `src/ai_task_creator.py`. -/

/-- `generate_ticket_number`: `f"TKT-{str(uuid.uuid4())[:8].upper()}"`,
with the random `str(uuid.uuid4())` supplied as the argument. -/
def generate_ticket_number (uuid4 : String) : String :=
  "TKT-" ++ pyUpper (pyTake uuid4 8)

/-- Modelled from the spec: `services/estimation_services.py` (class
`TicketEstimator`, method `_generate_ticket_id`) is imported by
`ai_task_creator.py` but its source is not in the repository snapshot.  The
spec prescribes a deterministic derivation from the task-description text —
"same input → same id …  implementers should use a stable content hash" —
so it is modelled as a stable polynomial content hash of the text. -/
def generate_ticket_id (task_description : String) : String :=
  "EST-" ++ toString
    (task_description.data.foldl (fun h c => (h * 31 + c.toNat) % (2 ^ 64)) 7)

/-- `generate_short_title`: empty task gives `"New Ticket"`; otherwise the
first `max_words` whitespace-separated words of the newline-collapsed task
text, joined and capitalized. -/
def generate_short_title (task : String) (max_words : Nat := 6) : String :=
  if task = "" then "New Ticket"
  else
    let t := pyStrip (pyReplaceChar task '\n' ' ')
    let words := pySplitWs t
    pyCapitalize (pyJoin " " (words.take max_words))

/-- The local `title` binding of `get_ai_estimate` (the word-count policy):
accept a string candidate of 3–6 words verbatim after trimming, otherwise
derive the title mechanically from the task text.  The source computes this
value but does not use it in the response payload. -/
def resolveTitle (raw_title : Option JVal) (task_description : String) : String :=
  match raw_title with
  | some (.jstr s) =>
    if 3 ≤ (pySplitWs s).length ∧ (pySplitWs s).length ≤ 6 then pyStrip s
    else generate_short_title task_description
  | _ => generate_short_title task_description

/-- The `estimate` sub-dictionary of the `/api/estimate` response. -/
structure EstimatePayload where
  estimated_time : JVal
  priority : JVal
  complexity_level : JVal
  dependencies : JVal
  required_access : JVal
  suggested_labels : JVal
  reasoning : JVal
deriving Repr

/-- The success body of the `/api/estimate` response. -/
structure EstimateResponse where
  ticket_id : String
  ticket_number : String
  task : String
  title : JVal
  estimate : EstimatePayload
deriving Repr

/-- An HTTP outcome of the boundary endpoints: a success body, or an error
body with its status code. -/
inductive HttpResult where
  | ok (body : EstimateResponse)
  | failure (status : Nat) (error : JVal)
deriving Repr

/-- The `/api/estimate` handler `get_ai_estimate`: trim the task text and
reject it when empty; call the estimator; when the response's `success`
value is truthy, assemble the response payload (with the scalar-to-array
coercions and the per-field defaults), else report the estimator's error
with status 500.  `uuid4` stands for the `str(uuid.uuid4())` drawn for
`generate_ticket_number`. -/
def get_ai_estimate (parse : String → Option JsonObj) (call : Nat → Except String String)
    (uuid4 : String) (rawTask : String) : HttpResult :=
  let task_description := pyStrip rawTask
  if task_description = "" then
    .failure 400 (.jstr "Task description is required")
  else
    let ai_response := (estimate_task parse call task_description).1
    if (ai_response.success.getD .jnull).truthy then
      let tags := wrapIfStr (ai_response.suggested_labels.getD (.jarr []))
      let access_required := wrapIfStr (ai_response.required_access.getD (.jarr []))
      let dependencies := wrapIfStr (ai_response.dependencies.getD (.jarr []))
      -- the word-count-policy title is bound here in the source, but the
      -- response payload below takes the raw model title instead
      let _title := resolveTitle ai_response.title task_description
      .ok
        { ticket_id := generate_ticket_id task_description
          ticket_number := generate_ticket_number uuid4
          task := task_description
          title := ai_response.title.getD (.jstr task_description)
          estimate :=
            { estimated_time := ai_response.estimated_time.getD (.jstr "Unknown")
              priority := ai_response.priority.getD (.jstr "Medium")
              complexity_level := ai_response.complexity_level.getD (.jstr "Medium")
              dependencies := dependencies
              required_access := access_required
              suggested_labels := tags
              reasoning := ai_response.reasoning.getD (.jstr "") } }
    else
      .failure 500 (ai_response.error.getD (.jstr "AI generation failed"))

/-- The request body of `/api/create-ticket`, restricted to the keys the
handler reads (the `estimate` sub-dictionary is flattened into the three
`estimate_*`-sourced fields plus `estimated_time`). -/
structure TicketRequest where
  ticket_id : Option String := none
  ticket_number : Option String := none
  title : Option String := none
  task : Option String := none
  edited_description : Option String := none
  edited_priority : Option String := none
  estimated_time : Option String := none
  suggested_labels : Option (List String) := none
  required_access : Option (List String) := none
  dependencies : Option (List String) := none
deriving Repr, DecidableEq

/-- The persisted `KanbanTicket` row as constructed by `create_final_ticket`. -/
structure KanbanTicket where
  ticket_id : Option String
  ticket_number : String
  title : String
  description : String
  status : String
  priority : String
  estimated_time : String
  tags : List String
  access_required : List String
  dependencies : List String
deriving Repr, DecidableEq

/-- Python `x or y` on an optional string: `y` when `x` is absent or empty. -/
def pyOrElse (v : Option String) (fallback : String) : String :=
  match v with
  | some s => if s = "" then fallback else s
  | none => fallback

/-- The `/api/create-ticket` handler `create_final_ticket`: build the
`KanbanTicket` row from the request data, generating a ticket number only
when the request supplies none. -/
def create_final_ticket (uuid4 : String) (data : TicketRequest) : KanbanTicket :=
  { ticket_id := data.ticket_id
    ticket_number := pyOrElse data.ticket_number (generate_ticket_number uuid4)
    title := data.title.getD (generate_short_title (data.task.getD "New Ticket"))
    description := data.edited_description.getD ""
    status := "new"
    priority := pyLower (data.edited_priority.getD "medium")
    estimated_time := data.estimated_time.getD "TBD"
    tags := data.suggested_labels.getD []
    access_required := data.required_access.getD []
    dependencies := data.dependencies.getD [] }

/-! Specification-side predicates. -/

/-- The sixteen lower-case hexadecimal digits (the alphabet of
`str(uuid.uuid4())` besides the dashes, none of which occur in the first
eight characters). -/
def isLowerHexChar (c : Char) : Bool := "0123456789abcdef".data.contains c

/-- The sixteen upper-case hexadecimal digits. -/
def isUpperHexChar (c : Char) : Bool := "0123456789ABCDEF".data.contains c

/-- The display format `TKT-XXXXXXXX` with upper-case hex-like characters. -/
def matchesTicketNumberFormat (s : String) : Bool :=
  pyStartsWith s "TKT-" && (s.data.length == 12) && (s.data.drop 4).all isUpperHexChar

/-- The first and last characters (when any) are not whitespace, i.e. the
string is already trimmed at both ends. -/
def noEdgeWhitespace (s : String) : Bool :=
  s.data.head?.all (fun c => !c.isWhitespace) &&
  s.data.getLast?.all (fun c => !c.isWhitespace)

/-- All eight estimate fields are present in a dictionary. -/
def allFieldsPresent (o : JsonObj) : Prop :=
  o.title.isSome ∧ o.estimated_time.isSome ∧ o.priority.isSome ∧
  o.complexity_level.isSome ∧ o.dependencies.isSome ∧ o.required_access.isSome ∧
  o.suggested_labels.isSome ∧ o.reasoning.isSome

/-- A JSON value is an array whose elements are all strings. -/
def isStringArray : JVal → Prop
  | .jarr xs => ∀ v ∈ xs, ∃ s, v = JVal.jstr s
  | _ => False

/-- A JSON value is not a bare string. -/
def neverBareString (v : JVal) : Prop := ∀ s, v ≠ JVal.jstr s

/-- The observable coercion contract of one scalar-or-array field: absent
becomes the empty array, a bare string becomes a one-element array, an
array passes through, and the output is never a bare string. -/
def arrayCoerced (src : Option JVal) (out : JVal) : Prop :=
  (src = none → out = .jarr []) ∧
  (∀ s, src = some (.jstr s) → out = .jarr [.jstr s]) ∧
  (∀ xs, src = some (.jarr xs) → out = .jarr xs) ∧
  neverBareString out

/-- Projection used by closed witnesses: the `estimated_time` of a success
body. -/
def okEstimatedTime : HttpResult → Option JVal
  | .ok r => some r.estimate.estimated_time
  | .failure _ _ => none

/-- Projection used by closed witnesses: the `title` of a success body. -/
def okTitle : HttpResult → Option JVal
  | .ok r => some r.title
  | .failure _ _ => none

/-- Projection used by closed witnesses: the `ticket_id` of a success body. -/
def okTicketId : HttpResult → Option String
  | .ok r => some r.ticket_id
  | .failure _ _ => none

/-- Projection used by closed witnesses: the `dependencies` of a success body. -/
def okDependencies : HttpResult → Option JVal
  | .ok r => some r.estimate.dependencies
  | .failure _ _ => none

/-! Concrete instances of the external collaborators, for closed
counterexamples and witnesses. -/

/-- `json.loads` on the reply `{"title": "Fix"}`. -/
def parseTitleFix : String → Option JsonObj := fun s =>
  if s = "\x7b\"title\": \"Fix\"\x7d" then some { title := some (.jstr "Fix") } else none

/-- A model call that replies `{"title": "Fix"}` at once. -/
def callTitleFix : Nat → Except String String := fun _ => .ok "\x7b\"title\": \"Fix\"\x7d"

/-- `json.loads` on the reply `{"success": false}`. -/
def parseSuccessFalse : String → Option JsonObj := fun s =>
  if s = "\x7b\"success\": false\x7d" then some { success := some (.jbool false) } else none

/-- A model call that replies with `{"success": false}` in a JSON code fence. -/
def callSuccessFalse : Nat → Except String String := fun _ =>
  .ok "```json\n\x7b\"success\": false\x7d\n```"

/-- `json.loads` on a reply that is not JSON at all. -/
def parseNone : String → Option JsonObj := fun _ => none

/-- A model call that replies with unparsable text at once. -/
def callGarbage : Nat → Except String String := fun _ => .ok "not json"

/-- `json.loads` on the reply `{}`. -/
def parseEmptyObj : String → Option JsonObj := fun s =>
  if s = "\x7b\x7d" then some {} else none

/-- A model call that replies `{}` at once. -/
def callEmptyObj : Nat → Except String String := fun _ => .ok "\x7b\x7d"

/-- A model call that fails transiently on attempts 0 and 1 and succeeds on
attempt 2. -/
def callRetryDemo : Nat → Except String String := fun n =>
  if n < 2 then .error "503 Service Unavailable" else .ok "\x7b\x7d"

/-- A model call that fails non-transiently at once. -/
def callFatal : Nat → Except String String := fun _ => .error "400 Bad Request"

/-! Helper lemmas. -/

theorem retryLoop_ok (call : Nat → Except String String) (attempt fuel delay : Nat)
    (delays : List Nat) (r : String) (h : call attempt = .ok r) :
    retryLoop call attempt (fuel + 1) delay delays = (.ok r, delays) := by
  simp [retryLoop, h]

theorem retryLoop_transient (call : Nat → Except String String) (attempt fuel delay : Nat)
    (delays : List Nat) (e : String) (h : call attempt = .error e)
    (ht : isTransientError e = true) (hf : 0 < fuel) :
    retryLoop call attempt (fuel + 1) delay delays =
      retryLoop call (attempt + 1) fuel (delay * 2) (delays ++ [delay]) := by
  simp [retryLoop, h, ht, hf]

theorem retryLoop_exhausted (call : Nat → Except String String) (attempt delay : Nat)
    (delays : List Nat) (e : String) (h : call attempt = .error e)
    (ht : isTransientError e = true) :
    retryLoop call attempt 1 delay delays = (.error e, delays) := by
  simp [retryLoop, h, ht]

theorem retryLoop_fatal (call : Nat → Except String String) (attempt fuel delay : Nat)
    (delays : List Nat) (e : String) (h : call attempt = .error e)
    (ht : isTransientError e = false) :
    retryLoop call attempt (fuel + 1) delay delays = (.error e, delays) := by
  simp [retryLoop, h, ht]

theorem estimate_task_of_invoke_ok (parse : String → Option JsonObj)
    (call : Nat → Except String String) (task text : String) (delays : List Nat)
    (hcall : modelInvoke call = (.ok text, delays)) :
    estimate_task parse call task =
      ((match parse (stripFences text) with
        | some estimate_data => parsedSuccessResult estimate_data
        | none => jsonDecodeFallback task), delays) := by
  simp [estimate_task, hcall]
  cases parse (stripFences text) <;> rfl

theorem estimate_task_of_invoke_error (parse : String → Option JsonObj)
    (call : Nat → Except String String) (task e : String) (delays : List Nat)
    (hcall : modelInvoke call = (.error e, delays)) :
    estimate_task parse call task = (geminiFailureResult e, delays) := by
  simp [estimate_task, hcall]

theorem get_ai_estimate_ok_spec (parse : String → Option JsonObj)
    (call : Nat → Except String String) (uuid4 rawTask : String) (r : EstimateResponse)
    (h : get_ai_estimate parse call uuid4 rawTask = .ok r) :
    r.ticket_id = generate_ticket_id (pyStrip rawTask) ∧
    r.ticket_number = generate_ticket_number uuid4 ∧
    r.title = (estimate_task parse call (pyStrip rawTask)).1.title.getD
      (.jstr (pyStrip rawTask)) ∧
    r.estimate.estimated_time =
      (estimate_task parse call (pyStrip rawTask)).1.estimated_time.getD
        (.jstr "Unknown") ∧
    r.estimate.priority =
      (estimate_task parse call (pyStrip rawTask)).1.priority.getD (.jstr "Medium") ∧
    r.estimate.complexity_level =
      (estimate_task parse call (pyStrip rawTask)).1.complexity_level.getD
        (.jstr "Medium") ∧
    r.estimate.dependencies =
      wrapIfStr ((estimate_task parse call (pyStrip rawTask)).1.dependencies.getD
        (.jarr [])) ∧
    r.estimate.required_access =
      wrapIfStr ((estimate_task parse call (pyStrip rawTask)).1.required_access.getD
        (.jarr [])) ∧
    r.estimate.suggested_labels =
      wrapIfStr ((estimate_task parse call (pyStrip rawTask)).1.suggested_labels.getD
        (.jarr [])) ∧
    r.estimate.reasoning =
      (estimate_task parse call (pyStrip rawTask)).1.reasoning.getD (.jstr "") := by
  simp only [get_ai_estimate] at h
  by_cases h1 : pyStrip rawTask = ""
  · rw [if_pos h1] at h
    exact absurd h (by simp)
  · rw [if_neg h1] at h
    by_cases h2 :
      ((estimate_task parse call (pyStrip rawTask)).1.success.getD .jnull).truthy = true
    · rw [if_pos h2] at h
      injection h with h3
      subst h3
      exact ⟨rfl, rfl, rfl, rfl, rfl, rfl, rfl, rfl, rfl, rfl⟩
    · rw [if_neg h2] at h
      exact absurd h (by simp)

theorem noEdge_head {s : String} (h : noEdgeWhitespace s = true) :
    ∀ c ∈ s.data.head?, Char.isWhitespace c = false := by
  intro c hc
  unfold noEdgeWhitespace at h
  rw [Bool.and_eq_true] at h
  rcases hd : s.data.head? with _ | d
  · rw [hd] at hc
    exact absurd hc (by simp)
  · rw [hd] at hc
    have hcd : d = c := by simpa using hc
    subst hcd
    have h1 := h.1
    rw [hd, Option.all_some] at h1
    simpa using h1

theorem noEdge_last {s : String} (h : noEdgeWhitespace s = true) :
    ∀ c ∈ s.data.getLast?, Char.isWhitespace c = false := by
  intro c hc
  unfold noEdgeWhitespace at h
  rw [Bool.and_eq_true] at h
  rcases hd : s.data.getLast? with _ | d
  · rw [hd] at hc
    exact absurd hc (by simp)
  · rw [hd] at hc
    have hcd : d = c := by simpa using hc
    subst hcd
    have h2 := h.2
    rw [hd, Option.all_some] at h2
    simpa using h2

theorem dropWhile_eq_self_of_head {l : List Char}
    (h : ∀ c ∈ l.head?, Char.isWhitespace c = false) :
    l.dropWhile Char.isWhitespace = l := by
  cases l with
  | nil => rfl
  | cons c t =>
    have hc := h c (by simp)
    simp [List.dropWhile_cons, hc]

theorem stripL_eq_self {l : List Char}
    (hh : ∀ c ∈ l.head?, Char.isWhitespace c = false)
    (hl : ∀ c ∈ l.getLast?, Char.isWhitespace c = false) :
    stripL l = l := by
  unfold stripL
  rw [dropWhile_eq_self_of_head hh]
  rw [dropWhile_eq_self_of_head (by simpa using hl)]
  exact List.reverse_reverse l

theorem stripL_pad {a b : Char} (ha : Char.isWhitespace a = true)
    (hb : Char.isWhitespace b = true) {l : List Char}
    (hh : ∀ c ∈ l.head?, Char.isWhitespace c = false)
    (hl : ∀ c ∈ l.getLast?, Char.isWhitespace c = false) :
    stripL (a :: (l ++ [b])) = l := by
  cases l with
  | nil =>
    unfold stripL
    simp [List.dropWhile_cons, ha, hb]
  | cons c t =>
    have hc := hh c (by simp)
    unfold stripL
    have e1 : ((a :: (c :: t ++ [b])).dropWhile Char.isWhitespace) = c :: (t ++ [b]) := by
      simp [List.dropWhile_cons, ha, hc]
    rw [e1]
    have e2 : (c :: (t ++ [b])).reverse = b :: (c :: t).reverse := by
      simp
    rw [e2]
    have e3 : ((b :: (c :: t).reverse).dropWhile Char.isWhitespace) =
        ((c :: t).reverse.dropWhile Char.isWhitespace) := by
      simp [List.dropWhile_cons, hb]
    rw [e3]
    rw [dropWhile_eq_self_of_head (by simpa only [List.head?_reverse] using hl)]
    simp

/-- The common processing of the text left after the leading fence has been
removed: `\n body \n` followed by a trailing fence.  It does not start with
a fence, ends with one, losing it leaves `\n body \n`, and the final strip
recovers the body. -/
theorem fenceRemainder_spec (body : String) (hbody : noEdgeWhitespace body = true) :
    pyStartsWith ⟨'\n' :: (body.data ++ ('\n' :: "```".data))⟩ "```" = false ∧
    pyEndsWith ⟨'\n' :: (body.data ++ ('\n' :: "```".data))⟩ "```" = true ∧
    pyDropRightChars ⟨'\n' :: (body.data ++ ('\n' :: "```".data))⟩ 3 =
      ⟨'\n' :: (body.data ++ ['\n'])⟩ ∧
    pyStrip ⟨'\n' :: (body.data ++ ['\n'])⟩ = body := by
  refine ⟨?_, ?_, ?_, ?_⟩
  · unfold pyStartsWith
    rw [Bool.eq_false_iff]
    intro hb
    have hp := List.isPrefixOf_iff_prefix.mp hb
    rw [show "```".data = Char.ofNat 96 :: "``".data from by decide] at hp
    rcases (List.cons_prefix_cons.mp hp).1 with h
    exact absurd h (by decide)
  · unfold pyEndsWith
    rw [List.isSuffixOf_iff_suffix]
    refine ⟨'\n' :: (body.data ++ ['\n']), ?_⟩
    simp [List.append_assoc]
  · apply congrArg String.mk
    show (('\n' :: (body.data ++ ('\n' :: "```".data))).take
      (('\n' :: (body.data ++ ('\n' :: "```".data))).length - 3)) =
      '\n' :: (body.data ++ ['\n'])
    have hsplit : ('\n' :: (body.data ++ ('\n' :: "```".data))) =
        ('\n' :: (body.data ++ ['\n'])) ++ "```".data := by
      simp [List.append_assoc]
    rw [hsplit]
    apply List.take_left'
    simp
  · apply congrArg String.mk
    exact stripL_pad (by decide) (by decide) (noEdge_head hbody) (noEdge_last hbody)

/-- Removing a `json`-tagged markdown fence recovers the trimmed body. -/
theorem stripFences_json_fence (body : String) (hbody : noEdgeWhitespace body = true) :
    stripFences ("```json\n" ++ body ++ "\n```") = body := by
  have hrem := fenceRemainder_spec body hbody
  have hdata : ("```json\n" ++ body ++ "\n```").data =
      "```json".data ++ ('\n' :: (body.data ++ ('\n' :: "```".data))) := by
    simp [String.data_append, List.append_assoc]
  have h0 : pyStrip ("```json\n" ++ body ++ "\n```") = "```json\n" ++ body ++ "\n```" := by
    apply congrArg String.mk
    apply stripL_eq_self
    · rw [hdata]
      rw [show "```json".data = Char.ofNat 96 :: "``json".data from by decide]
      intro c hc
      simp at hc
      subst hc
      decide
    · rw [hdata]
      rw [show "```".data = "``".data ++ [Char.ofNat 96] from by decide]
      intro c hc
      rw [show ("```json".data ++
          ('\n' :: (body.data ++ ('\n' :: ("``".data ++ [Char.ofNat 96]))))) =
        ("```json".data ++ ('\n' :: (body.data ++ ('\n' :: "``".data)))) ++
          [Char.ofNat 96] from by simp [List.append_assoc]] at hc
      rw [List.getLast?_concat] at hc
      have hgl : Char.ofNat 96 = c := by simpa using hc
      subst hgl
      decide
  have h1 : pyStartsWith ("```json\n" ++ body ++ "\n```") "```json" = true := by
    unfold pyStartsWith
    rw [hdata, List.isPrefixOf_iff_prefix]
    exact List.prefix_append _ _
  have h2 : pyDropChars ("```json\n" ++ body ++ "\n```") 7 =
      ⟨'\n' :: (body.data ++ ('\n' :: "```".data))⟩ := by
    apply congrArg String.mk
    rw [hdata]
    exact List.drop_left' (by decide)
  simp only [stripFences]
  rw [h0, if_pos h1, h2]
  rw [if_neg (show ¬ pyStartsWith ⟨'\n' :: (body.data ++ ('\n' :: "```".data))⟩ "```" = true by
    simp [hrem.1])]
  rw [if_pos hrem.2.1, hrem.2.2.1, hrem.2.2.2]

/-- Removing a bare markdown fence recovers the trimmed body. -/
theorem stripFences_bare_fence (body : String) (hbody : noEdgeWhitespace body = true) :
    stripFences ("```\n" ++ body ++ "\n```") = body := by
  have hrem := fenceRemainder_spec body hbody
  have hdata : ("```\n" ++ body ++ "\n```").data =
      "```".data ++ ('\n' :: (body.data ++ ('\n' :: "```".data))) := by
    simp [String.data_append, List.append_assoc]
  have h0 : pyStrip ("```\n" ++ body ++ "\n```") = "```\n" ++ body ++ "\n```" := by
    apply congrArg String.mk
    apply stripL_eq_self
    · rw [hdata]
      rw [show "```".data = Char.ofNat 96 :: "``".data from by decide]
      intro c hc
      simp at hc
      subst hc
      decide
    · rw [hdata]
      rw [show "```".data = "``".data ++ [Char.ofNat 96] from by decide]
      intro c hc
      rw [show (("``".data ++ [Char.ofNat 96]) ++
          ('\n' :: (body.data ++ ('\n' :: ("``".data ++ [Char.ofNat 96]))))) =
        (("``".data ++ [Char.ofNat 96]) ++
          ('\n' :: (body.data ++ ('\n' :: "``".data)))) ++
          [Char.ofNat 96] from by simp [List.append_assoc]] at hc
      rw [List.getLast?_concat] at hc
      have hgl : Char.ofNat 96 = c := by simpa using hc
      subst hgl
      decide
  have h1 : pyStartsWith ("```\n" ++ body ++ "\n```") "```json" = false := by
    unfold pyStartsWith
    rw [Bool.eq_false_iff]
    intro hb
    have hp := List.isPrefixOf_iff_prefix.mp hb
    rw [hdata] at hp
    rw [show "```json".data =
      Char.ofNat 96 :: Char.ofNat 96 :: Char.ofNat 96 :: 'j' :: "son".data from by decide,
      show "```".data = Char.ofNat 96 :: Char.ofNat 96 :: Char.ofNat 96 :: ([] : List Char)
        from by decide] at hp
    simp only [List.cons_append, List.nil_append, List.cons_prefix_cons] at hp
    rcases hp with ⟨-, -, -, hj, -⟩
    exact absurd hj (by decide)
  have h2 : pyStartsWith ("```\n" ++ body ++ "\n```") "```" = true := by
    unfold pyStartsWith
    rw [hdata, List.isPrefixOf_iff_prefix]
    exact List.prefix_append _ _
  have h3 : pyDropChars ("```\n" ++ body ++ "\n```") 3 =
      ⟨'\n' :: (body.data ++ ('\n' :: "```".data))⟩ := by
    apply congrArg String.mk
    rw [hdata]
    exact List.drop_left' (by decide)
  simp only [stripFences]
  rw [h0]
  rw [if_neg (show ¬ pyStartsWith ("```\n" ++ body ++ "\n```") "```json" = true by simp [h1])]
  rw [if_pos h2, h3]
  rw [if_pos hrem.2.1, hrem.2.2.1, hrem.2.2.2]

theorem pyStrip_eq_self {s : String} (h : noEdgeWhitespace s = true) :
    pyStrip s = s := by
  unfold pyStrip
  exact congrArg String.mk (stripL_eq_self (noEdge_head h) (noEdge_last h))

/-- A trimmed reply carrying no fence markers passes through unchanged. -/
theorem stripFences_plain (body : String) (hbody : noEdgeWhitespace body = true)
    (h1 : pyStartsWith body "```json" = false) (h2 : pyStartsWith body "```" = false)
    (h3 : pyEndsWith body "```" = false) : stripFences body = body := by
  have h0 := pyStrip_eq_self hbody
  simp only [stripFences]
  rw [h0]
  rw [if_neg (show ¬ pyStartsWith body "```json" = true by simp [h1])]
  rw [if_neg (show ¬ pyStartsWith body "```" = true by simp [h2])]
  rw [if_neg (show ¬ pyEndsWith body "```" = true by simp [h3])]
  exact h0

theorem arrayCoerced_wrap (v : Option JVal) :
    arrayCoerced v (wrapIfStr (v.getD (.jarr []))) := by
  refine ⟨?_, ?_, ?_, ?_⟩
  · intro h
    rw [h]
    rfl
  · intro s h
    rw [h]
    rfl
  · intro xs h
    rw [h]
    rfl
  · cases v with
    | none =>
      intro s h
      exact absurd h (by simp [wrapIfStr])
    | some val =>
      cases val <;> intro s h <;> simp [wrapIfStr] at h

theorem toUpper_lower_hex {c : Char} (h : isLowerHexChar c = true) :
    isUpperHexChar c.toUpper = true := by
  have hm : c ∈ "0123456789abcdef".data := by
    simpa [isLowerHexChar] using h
  have hall : ∀ x ∈ "0123456789abcdef".data, isUpperHexChar x.toUpper = true := by decide
  exact hall c hm

/-! Claims. -/

/-- C3: the Model Invoker retries only transient-unavailability failures, up
to 3 attempts, with delays 2 then 4 time-units; any other failure, and a
transient failure on the last attempt, is propagated.  In particular, with
transient failures on attempts 1 and 2 and success on attempt 3, the
successful result is returned after exactly the 2 strictly increasing
backoff delays 2 and 4. -/
theorem claim_C3 :
    (∀ (call : Nat → Except String String) (r e0 e1 : String),
      call 0 = .error e0 → isTransientError e0 = true →
      call 1 = .error e1 → isTransientError e1 = true →
      call 2 = .ok r →
      modelInvoke call = (.ok r, [2, 4]) ∧ ([2, 4] : List Nat).length = 2 ∧ 2 < 4) ∧
    (∀ (call : Nat → Except String String) (e : String),
      call 0 = .error e → isTransientError e = false →
      modelInvoke call = (.error e, [])) ∧
    (∀ (call : Nat → Except String String) (e0 e1 : String),
      call 0 = .error e0 → isTransientError e0 = true →
      call 1 = .error e1 → isTransientError e1 = false →
      modelInvoke call = (.error e1, [2])) ∧
    (∀ (call : Nat → Except String String) (e0 e1 e2 : String),
      call 0 = .error e0 → isTransientError e0 = true →
      call 1 = .error e1 → isTransientError e1 = true →
      call 2 = .error e2 → isTransientError e2 = true →
      modelInvoke call = (.error e2, [2, 4])) := by
  refine ⟨?_, ?_, ?_, ?_⟩
  · intro call r e0 e1 h0 ht0 h1 ht1 h2
    refine ⟨?_, rfl, by omega⟩
    unfold modelInvoke
    rw [retryLoop_transient call 0 2 2 [] e0 h0 ht0 (by omega)]
    show retryLoop call 1 2 4 [2] = (.ok r, [2, 4])
    rw [retryLoop_transient call 1 1 4 [2] e1 h1 ht1 (by omega)]
    show retryLoop call 2 1 8 [2, 4] = (.ok r, [2, 4])
    rw [retryLoop_ok call 2 0 8 [2, 4] r h2]
  · intro call e h0 ht
    unfold modelInvoke
    rw [retryLoop_fatal call 0 2 2 [] e h0 ht]
  · intro call e0 e1 h0 ht0 h1 ht1
    unfold modelInvoke
    rw [retryLoop_transient call 0 2 2 [] e0 h0 ht0 (by omega)]
    show retryLoop call 1 2 4 [2] = (.error e1, [2])
    rw [retryLoop_fatal call 1 1 4 [2] e1 h1 ht1]
  · intro call e0 e1 e2 h0 ht0 h1 ht1 h2 ht2
    unfold modelInvoke
    rw [retryLoop_transient call 0 2 2 [] e0 h0 ht0 (by omega)]
    show retryLoop call 1 2 4 [2] = (.error e2, [2, 4])
    rw [retryLoop_transient call 1 1 4 [2] e1 h1 ht1 (by omega)]
    show retryLoop call 2 1 8 [2, 4] = (.error e2, [2, 4])
    rw [retryLoop_exhausted call 2 8 [2, 4] e2 h2 ht2]

/-- Witness for C3: a model call failing with `503 Service Unavailable` on
attempts 1 and 2 and succeeding on attempt 3 returns the successful reply
after exactly the backoff delays 2 and 4. -/
theorem claim_C3_witness :
    modelInvoke callRetryDemo = (.ok "\x7b\x7d", [2, 4]) ∧
    ([2, 4] : List Nat).length = 2 ∧ 2 < 4 :=
  claim_C3.1 callRetryDemo "\x7b\x7d" "503 Service Unavailable" "503 Service Unavailable"
    rfl (by decide) rfl (by decide) rfl

/-- C4: an unparsable model reply yields the deterministic fallback Estimate
tagged `success = true`, whose reasoning embeds the first 200 characters of
the task text between two fixed strings; the result does not depend on which
unparsable reply was received. -/
theorem claim_C4 (parse : String → Option JsonObj) (call : Nat → Except String String)
    (task text : String) (delays : List Nat)
    (hcall : modelInvoke call = (.ok text, delays))
    (hparse : parse (stripFences text) = none) :
    (estimate_task parse call task).1 = jsonDecodeFallback task ∧
    (jsonDecodeFallback task).success = some (.jbool true) ∧
    (jsonDecodeFallback task).reasoning =
      some (.jstr (jsonFallbackHead ++ pyTake task 200 ++ jsonFallbackTail)) ∧
    (∀ (parse2 : String → Option JsonObj) (call2 : Nat → Except String String)
       (text2 : String) (delays2 : List Nat),
      modelInvoke call2 = (.ok text2, delays2) →
      parse2 (stripFences text2) = none →
      (estimate_task parse2 call2 task).1 = (estimate_task parse call task).1) := by
  have h1 : (estimate_task parse call task).1 = jsonDecodeFallback task := by
    rw [estimate_task_of_invoke_ok parse call task text delays hcall]
    simp [hparse]
  refine ⟨h1, rfl, rfl, ?_⟩
  intro parse2 call2 text2 delays2 hc2 hp2
  have h2 : (estimate_task parse2 call2 task).1 = jsonDecodeFallback task := by
    rw [estimate_task_of_invoke_ok parse2 call2 task text2 delays2 hc2]
    simp [hp2]
  rw [h1, h2]

/-- Witness for C4: the unparsable reply `not json` yields the fallback with
the task excerpt embedded, and a different unparsable reply yields the same
Estimate. -/
theorem claim_C4_witness :
    (estimate_task parseNone callGarbage "Fix the flaky deploy").1 =
      jsonDecodeFallback "Fix the flaky deploy" ∧
    (jsonDecodeFallback "Fix the flaky deploy").success = some (.jbool true) ∧
    (jsonDecodeFallback "Fix the flaky deploy").reasoning =
      some (.jstr (jsonFallbackHead ++ pyTake "Fix the flaky deploy" 200 ++
        jsonFallbackTail)) ∧
    (estimate_task parseNone callTitleFix "Fix the flaky deploy").1 =
      (estimate_task parseNone callGarbage "Fix the flaky deploy").1 := by
  have h := claim_C4 parseNone callGarbage "Fix the flaky deploy" "not json" [] rfl rfl
  exact ⟨h.1, h.2.1, h.2.2.1,
    h.2.2.2 parseNone callTitleFix "\x7b\"title\": \"Fix\"\x7d" [] rfl rfl⟩

/-- C5: an invocation failure (a non-transient model error, or transient
errors exhausting the retry budget — any run where the invoker ends in an
error) yields an Estimate tagged `success = false` carrying a non-empty
error string, with
priority and complexity `Medium` and labels `["needs-analysis"]`, and the
boundary endpoint reports it as a status-500 failure (no ticket payload is
produced). -/
theorem claim_C5 (parse : String → Option JsonObj) (call : Nat → Except String String)
    (uuid4 rawTask e : String) (htask : ¬ pyStrip rawTask = "")
    (hinv : (modelInvoke call).1 = .error e) :
    (estimate_task parse call (pyStrip rawTask)).1 = geminiFailureResult e ∧
    (geminiFailureResult e).success = some (.jbool false) ∧
    (geminiFailureResult e).error = some (.jstr ("AI Generation failed: " ++ e)) ∧
    ("AI Generation failed: " ++ e) ≠ "" ∧
    (geminiFailureResult e).priority = some (.jstr "Medium") ∧
    (geminiFailureResult e).complexity_level = some (.jstr "Medium") ∧
    (geminiFailureResult e).suggested_labels = some (.jarr [.jstr "needs-analysis"]) ∧
    get_ai_estimate parse call uuid4 rawTask =
      .failure 500 (.jstr ("AI Generation failed: " ++ e)) := by
  have hpair : modelInvoke call = (.error e, (modelInvoke call).2) := by
    rw [← hinv]
  have h1 : estimate_task parse call (pyStrip rawTask) =
      (geminiFailureResult e, (modelInvoke call).2) :=
    estimate_task_of_invoke_error parse call _ e _ hpair
  have hne : ("AI Generation failed: " ++ e) ≠ "" := by
    intro h
    have hd := congrArg String.data h
    simp only [String.data_append] at hd
    rw [List.append_eq_nil] at hd
    exact absurd hd.1 (by decide)
  refine ⟨by rw [h1], rfl, rfl, hne, rfl, rfl, rfl, ?_⟩
  unfold get_ai_estimate
  rw [if_neg htask, h1]
  simp [geminiFailureResult, JVal.truthy]

/-- Witness for C5: a `400 Bad Request` model error surfaces as the
`success = false` failure Estimate and a status-500 boundary failure. -/
theorem claim_C5_witness :
    (estimate_task parseNone callFatal (pyStrip "Fix the flaky deploy")).1 =
      geminiFailureResult "400 Bad Request" ∧
    (geminiFailureResult "400 Bad Request").success = some (.jbool false) ∧
    (geminiFailureResult "400 Bad Request").error =
      some (.jstr ("AI Generation failed: " ++ "400 Bad Request")) ∧
    ("AI Generation failed: " ++ "400 Bad Request") ≠ "" ∧
    (geminiFailureResult "400 Bad Request").priority = some (.jstr "Medium") ∧
    (geminiFailureResult "400 Bad Request").complexity_level = some (.jstr "Medium") ∧
    (geminiFailureResult "400 Bad Request").suggested_labels =
      some (.jarr [.jstr "needs-analysis"]) ∧
    get_ai_estimate parseNone callFatal "0f3a9b2c" "Fix the flaky deploy" =
      .failure 500 (.jstr ("AI Generation failed: " ++ "400 Bad Request")) :=
  claim_C5 parseNone callFatal "0f3a9b2c" "Fix the flaky deploy" "400 Bad Request"
    (by decide) rfl

/-- C10: on the parse-success path the result is the literal
`{"success": True, "title": ...}` merged with the parsed object, the parsed
object's keys taking precedence; a `success` (or `error`) key in the parsed
JSON therefore overrides the tag, so `success` is not guaranteed to be
`True` on this path. -/
theorem claim_C10 (obj : JsonObj) :
    (parsedSuccessResult obj).success = some (obj.success.getD (.jbool true)) ∧
    (∀ v, obj.success = some v → (parsedSuccessResult obj).success = some v) ∧
    (obj.success = none → (parsedSuccessResult obj).success = some (.jbool true)) ∧
    (parsedSuccessResult obj).error = obj.error ∧
    (parsedSuccessResult obj).title = some (obj.title.getD (.jstr "")) ∧
    (parsedSuccessResult obj).estimated_time = obj.estimated_time ∧
    (parsedSuccessResult obj).priority = obj.priority ∧
    (parsedSuccessResult obj).complexity_level = obj.complexity_level ∧
    (parsedSuccessResult obj).dependencies = obj.dependencies ∧
    (parsedSuccessResult obj).suggested_labels = obj.suggested_labels ∧
    (parsedSuccessResult obj).reasoning = obj.reasoning ∧
    (parsedSuccessResult { success := some (.jbool false) } : JsonObj).success =
      some (.jbool false) := by
  refine ⟨rfl, ?_, ?_, rfl, rfl, rfl, rfl, rfl, rfl, rfl, rfl, rfl⟩
  · intro v hv
    simp [parsedSuccessResult, hv]
  · intro hv
    simp [parsedSuccessResult, hv]

/-- Witness for C10: a parsed reply containing `"success": false` produces a
result whose `success` entry is `false` despite the parse having succeeded. -/
theorem claim_C10_witness :
    (parsedSuccessResult { success := some (.jbool false) } : JsonObj).success =
      some (.jbool false) :=
  (claim_C10 { success := some (.jbool false) }).2.1 (.jbool false) rfl

/-- C1: every emitted Estimate carries all eight fields, whatever the
outcome: the two normalizer fallbacks populate every field (with the three
list fields holding arrays of strings), and on the boundary's success path
the three fields `dependencies`, `required_access` and `suggested_labels`
obey the coercion contract — an absent value becomes `[]`, a bare string
becomes a one-element array, an array passes through, and the caller never
receives a bare string (field presence itself is structural in the response
payload, which enumerates each key literally). -/
theorem claim_C1 :
    (∀ task, allFieldsPresent (jsonDecodeFallback task) ∧
      isStringArray ((jsonDecodeFallback task).dependencies.getD .jnull) ∧
      isStringArray ((jsonDecodeFallback task).required_access.getD .jnull) ∧
      isStringArray ((jsonDecodeFallback task).suggested_labels.getD .jnull)) ∧
    (∀ e, allFieldsPresent (geminiFailureResult e) ∧
      isStringArray ((geminiFailureResult e).dependencies.getD .jnull) ∧
      isStringArray ((geminiFailureResult e).required_access.getD .jnull) ∧
      isStringArray ((geminiFailureResult e).suggested_labels.getD .jnull)) ∧
    (∀ (parse : String → Option JsonObj) (call : Nat → Except String String)
       (uuid4 rawTask : String) (r : EstimateResponse),
      get_ai_estimate parse call uuid4 rawTask = .ok r →
      arrayCoerced (estimate_task parse call (pyStrip rawTask)).1.dependencies
        r.estimate.dependencies ∧
      arrayCoerced (estimate_task parse call (pyStrip rawTask)).1.required_access
        r.estimate.required_access ∧
      arrayCoerced (estimate_task parse call (pyStrip rawTask)).1.suggested_labels
        r.estimate.suggested_labels) := by
  refine ⟨?_, ?_, ?_⟩
  · intro task
    refine ⟨⟨rfl, rfl, rfl, rfl, rfl, rfl, rfl, rfl⟩, ?_, ?_, ?_⟩
    · intro v hv
      simp at hv
      subst hv
      exact ⟨_, rfl⟩
    · intro v hv
      simp at hv
      rcases hv with rfl | rfl | rfl <;> exact ⟨_, rfl⟩
    · intro v hv
      simp at hv
      rcases hv with rfl | rfl <;> exact ⟨_, rfl⟩
  · intro e
    refine ⟨⟨rfl, rfl, rfl, rfl, rfl, rfl, rfl, rfl⟩, ?_, ?_, ?_⟩
    · intro v hv
      simp at hv
      subst hv
      exact ⟨_, rfl⟩
    · intro v hv
      simp at hv
      subst hv
      exact ⟨_, rfl⟩
    · intro v hv
      simp at hv
      subst hv
      exact ⟨_, rfl⟩
  · intro parse call uuid4 rawTask r h
    have k := get_ai_estimate_ok_spec parse call uuid4 rawTask r h
    refine ⟨?_, ?_, ?_⟩
    · rw [k.2.2.2.2.2.2.1]
      exact arrayCoerced_wrap _
    · rw [k.2.2.2.2.2.2.2.1]
      exact arrayCoerced_wrap _
    · rw [k.2.2.2.2.2.2.2.2.1]
      exact arrayCoerced_wrap _

/-- Witness for C1: the fallback for an unparsable reply has every field,
and a parsed reply `{}` with no `dependencies` key reaches the caller as the
empty array. -/
theorem claim_C1_witness :
    allFieldsPresent (jsonDecodeFallback "Fix the flaky deploy") ∧
    okDependencies (get_ai_estimate parseEmptyObj callEmptyObj "0f3a9b2c"
      "Fix the flaky deploy") = some (.jarr []) := by
  have h := (claim_C1.2.2 parseEmptyObj callEmptyObj "0f3a9b2c"
    "Fix the flaky deploy" _ rfl).1.1 rfl
  exact ⟨(claim_C1.1 "Fix the flaky deploy").1, congrArg some h⟩

/-- C2 (code bug): with the model title `"Fix"` (1 word, outside the 3–6
word policy) and a 7-word task text, the boundary emits the raw model title
`"Fix"`, while the word-count policy computed into the unused local `title`
binding (`resolveTitle`) yields the mechanical derivation — so the emitted
title does not follow the word-count policy the spec states. -/
theorem claim_C2 :
    okTitle (get_ai_estimate parseTitleFix callTitleFix "0f3a9b2c"
      "implement the new login feature please today") = some (.jstr "Fix") ∧
    resolveTitle (some (.jstr "Fix")) "implement the new login feature please today" =
      "Implement the new login feature please" ∧
    ("Fix" : String) ≠ "Implement the new login feature please" :=
  ⟨rfl, by decide, by decide⟩

/-- C8: the `ticket_id` of a successful boundary response is a pure function
of the task text alone — two calls with the same task text but different
parses, model behaviours and uuid draws agree on it, and it equals the
content-derived `generate_ticket_id` of the trimmed task text. -/
theorem claim_C8 (parseA parseB : String → Option JsonObj)
    (callA callB : Nat → Except String String) (uuidA uuidB rawTask : String)
    (rA rB : EstimateResponse)
    (hA : get_ai_estimate parseA callA uuidA rawTask = .ok rA)
    (hB : get_ai_estimate parseB callB uuidB rawTask = .ok rB) :
    rA.ticket_id = rB.ticket_id ∧
    rA.ticket_id = generate_ticket_id (pyStrip rawTask) := by
  have kA := (get_ai_estimate_ok_spec parseA callA uuidA rawTask rA hA).1
  have kB := (get_ai_estimate_ok_spec parseB callB uuidB rawTask rB hB).1
  exact ⟨kA.trans kB.symm, kA⟩

/-- Witness for C8: the same task text through two different model outcomes
and uuid draws yields the same `ticket_id`. -/
theorem claim_C8_witness :
    okTicketId (get_ai_estimate parseEmptyObj callEmptyObj "0f3a9b2c"
      "Fix the flaky deploy") =
    okTicketId (get_ai_estimate parseNone callGarbage "1111abcd"
      "Fix the flaky deploy") := by
  have h := claim_C8 parseEmptyObj parseNone callEmptyObj callGarbage
    "0f3a9b2c" "1111abcd" "Fix the flaky deploy" _ _ rfl rfl
  exact congrArg some h.1

/-- C9 (amended): the `"Unknown"` default applies when a parsed model reply
omits `estimated_time` (the normalizer passes the absence through and the
boundary back-fills `"Unknown"`), and on invocation failure; but when the
reply is unparsable, the fallback Estimate carries `"1 week"` instead. -/
theorem claim_C9 :
    (∀ (parse : String → Option JsonObj) (call : Nat → Except String String)
       (uuid4 rawTask : String) (r : EstimateResponse),
      get_ai_estimate parse call uuid4 rawTask = .ok r →
      (estimate_task parse call (pyStrip rawTask)).1.estimated_time = none →
      r.estimate.estimated_time = .jstr "Unknown") ∧
    (∀ obj : JsonObj, (parsedSuccessResult obj).estimated_time = obj.estimated_time) ∧
    (∀ task, (jsonDecodeFallback task).estimated_time = some (.jstr "1 week")) ∧
    (∀ e, (geminiFailureResult e).estimated_time = some (.jstr "Unknown")) := by
  refine ⟨?_, fun _ => rfl, fun _ => rfl, fun _ => rfl⟩
  intro parse call uuid4 rawTask r h hnone
  have k := (get_ai_estimate_ok_spec parse call uuid4 rawTask r h).2.2.2.1
  rw [k, hnone]
  rfl

/-- Counterexample for C9: an unparsable reply yields an emitted
`estimated_time` of `"1 week"`, not `"Unknown"`. -/
theorem claim_C9_counterexample :
    okEstimatedTime (get_ai_estimate parseNone callGarbage "0f3a9b2c"
      "Fix the flaky deploy") = some (.jstr "1 week") ∧
    JVal.jstr "1 week" ≠ JVal.jstr "Unknown" := by
  refine ⟨rfl, ?_⟩
  intro h
  injection h with h2
  exact absurd h2 (by decide)

/-- Witness for C9: a parsed reply `{}` with no `estimated_time` key reaches
the caller as `"Unknown"`. -/
theorem claim_C9_witness :
    okEstimatedTime (get_ai_estimate parseEmptyObj callEmptyObj "0f3a9b2c"
      "Fix the flaky deploy") = some (.jstr "Unknown") := by
  have h := claim_C9.1 parseEmptyObj callEmptyObj "0f3a9b2c"
    "Fix the flaky deploy" _ rfl rfl
  exact congrArg some h

/-- Counterexample for C6: the reply `{"success": false}` inside a JSON code
fence is valid JSON, yet the normalizer's result is tagged
`success = false`, not `success = true` — the parsed object's own `success`
key overrides the tag. -/
theorem claim_C6_counterexample :
    (estimate_task parseSuccessFalse callSuccessFalse "Fix the flaky deploy").1.success =
      some (.jbool false) ∧
    some (JVal.jbool false) ≠ some (JVal.jbool true) := by
  refine ⟨rfl, ?_⟩
  intro h
  injection h with h2
  injection h2 with h3
  exact absurd h3 (by decide)

/-- C6 (amended): a model reply of valid JSON — wrapped in a `json`-tagged
fence, a bare fence, or not fenced at all — has its fence markers stripped
and whitespace trimmed, is parsed, and yields the merged result: every field
of the embedded object passes through (`required_access` with a bare string
wrapped as a one-element array), and the result is tagged `success = true`
unless the embedded object itself supplies a `success` key, which takes
precedence. -/
theorem claim_C6 (parse : String → Option JsonObj) (call : Nat → Except String String)
    (task body : String) (obj : JsonObj) (delays : List Nat)
    (hbody : noEdgeWhitespace body = true)
    (hparse : parse body = some obj)
    (hcall : modelInvoke call = (.ok ("```json\n" ++ body ++ "\n```"), delays) ∨
             modelInvoke call = (.ok ("```\n" ++ body ++ "\n```"), delays) ∨
             (modelInvoke call = (.ok body, delays) ∧
              pyStartsWith body "```json" = false ∧
              pyStartsWith body "```" = false ∧ pyEndsWith body "```" = false)) :
    (estimate_task parse call task).1 = parsedSuccessResult obj ∧
    (obj.success = none → (parsedSuccessResult obj).success = some (.jbool true)) ∧
    (∀ v, obj.success = some v → (parsedSuccessResult obj).success = some v) ∧
    (parsedSuccessResult obj).estimated_time = obj.estimated_time ∧
    (parsedSuccessResult obj).priority = obj.priority ∧
    (parsedSuccessResult obj).complexity_level = obj.complexity_level ∧
    (parsedSuccessResult obj).dependencies = obj.dependencies ∧
    (parsedSuccessResult obj).required_access = obj.required_access.map wrapIfStr ∧
    (parsedSuccessResult obj).suggested_labels = obj.suggested_labels ∧
    (parsedSuccessResult obj).reasoning = obj.reasoning ∧
    (∀ v, obj.title = some v → (parsedSuccessResult obj).title = some v) := by
  have hmain : (estimate_task parse call task).1 = parsedSuccessResult obj := by
    rcases hcall with hc | hc | ⟨hc, hn1, hn2, hn3⟩
    · rw [estimate_task_of_invoke_ok parse call task _ delays hc]
      simp [stripFences_json_fence body hbody, hparse]
    · rw [estimate_task_of_invoke_ok parse call task _ delays hc]
      simp [stripFences_bare_fence body hbody, hparse]
    · rw [estimate_task_of_invoke_ok parse call task _ delays hc]
      simp [stripFences_plain body hbody hn1 hn2 hn3, hparse]
  refine ⟨hmain, ?_, ?_, rfl, rfl, rfl, rfl, rfl, rfl, rfl, ?_⟩
  · intro hv
    simp [parsedSuccessResult, hv]
  · intro v hv
    simp [parsedSuccessResult, hv]
  · intro v hv
    simp [parsedSuccessResult, hv]

/-- Witness for C6: the fenced reply carrying `{"success": false}` is
stripped, parsed and merged, its `success` key surviving the merge. -/
theorem claim_C6_witness :
    (estimate_task parseSuccessFalse callSuccessFalse "Fix the flaky deploy").1 =
      parsedSuccessResult { success := some (.jbool false) } ∧
    (parsedSuccessResult ({ success := some (.jbool false) } : JsonObj)).success =
      some (.jbool false) := by
  have h := claim_C6 parseSuccessFalse callSuccessFalse "Fix the flaky deploy"
    "\x7b\"success\": false\x7d" { success := some (.jbool false) } [] (by decide) rfl
    (Or.inl rfl)
  exact ⟨h.1, h.2.2.1 (.jbool false) rfl⟩

/-- Counterexample for C7: `create_final_ticket` persists a client-supplied
`ticket_number` verbatim, so a request carrying `"garbage"` produces a
persisted ticket whose number does not match `TKT-XXXXXXXX`. -/
theorem claim_C7_counterexample :
    (create_final_ticket "0f3a9b2c-1111-2222-3333-444444444444"
      { ticket_number := some "garbage", edited_priority := some "HIGH" }).status =
      "new" ∧
    (create_final_ticket "0f3a9b2c-1111-2222-3333-444444444444"
      { ticket_number := some "garbage", edited_priority := some "HIGH" }).ticket_number =
      "garbage" ∧
    matchesTicketNumberFormat "garbage" = false :=
  ⟨rfl, rfl, by decide⟩

/-- C7 (amended): every persisted ticket has status `"new"` and the
lower-cased priority (defaulting to `"medium"`); and whenever the request
does not supply a ticket number, the generated one matches `TKT-XXXXXXXX`
with upper-case hex characters (given that the uuid draw starts with eight
lower-case hex digits, as `str(uuid.uuid4())` always does).  A
client-supplied ticket number, however, is persisted verbatim. -/
theorem claim_C7 (uuid4 : String) (data : TicketRequest)
    (hu : (pyTake uuid4 8).data.all isLowerHexChar = true)
    (hlen : (pyTake uuid4 8).data.length = 8) :
    (create_final_ticket uuid4 data).status = "new" ∧
    (create_final_ticket uuid4 data).priority =
      pyLower (data.edited_priority.getD "medium") ∧
    (data.edited_priority = none → (create_final_ticket uuid4 data).priority = "medium") ∧
    ((data.ticket_number = none ∨ data.ticket_number = some "") →
      matchesTicketNumberFormat (create_final_ticket uuid4 data).ticket_number = true) := by
  refine ⟨rfl, rfl, ?_, ?_⟩
  · intro h
    show pyLower (data.edited_priority.getD "medium") = "medium"
    rw [h]
    decide
  · intro h
    have hnum : (create_final_ticket uuid4 data).ticket_number =
        generate_ticket_number uuid4 := by
      rcases h with h | h <;> simp [create_final_ticket, pyOrElse, h]
    rw [hnum]
    have hdata : (generate_ticket_number uuid4).data =
        "TKT-".data ++ (pyTake uuid4 8).data.map Char.toUpper := by
      simp [generate_ticket_number, String.data_append, pyUpper]
    unfold matchesTicketNumberFormat
    rw [Bool.and_eq_true, Bool.and_eq_true]
    refine ⟨⟨?_, ?_⟩, ?_⟩
    · unfold pyStartsWith
      rw [hdata, List.isPrefixOf_iff_prefix]
      exact List.prefix_append _ _
    · rw [hdata]
      simp [hlen]
    · rw [hdata, List.drop_left' (by decide), List.all_map]
      rw [List.all_eq_true] at hu ⊢
      intro x hx
      simpa using toUpper_lower_hex (hu x hx)

/-- Witness for C7: with a fresh uuid draw and a request supplying no ticket
number, the persisted ticket has status `"new"` and a format-conforming
generated number. -/
theorem claim_C7_witness :
    (create_final_ticket "0f3a9b2c-1111-2222-3333-444444444444"
      ({ } : TicketRequest)).status = "new" ∧
    matchesTicketNumberFormat (create_final_ticket
      "0f3a9b2c-1111-2222-3333-444444444444" ({ } : TicketRequest)).ticket_number =
      true := by
  have h := claim_C7 "0f3a9b2c-1111-2222-3333-444444444444" { } (by decide) (by decide)
  exact ⟨h.1, h.2.2.2 (Or.inl rfl)⟩

end AiKanban
